import Mathlib

/-!
Verification development for the CMIP6 NetCDF-to-Excel merger
(src/config.py, src/merge_nc_to_excel.py, src/utils/file_handler.py,
src/utils/nc_reader.py, src/utils/excel_writer.py).

The pipeline is shallowly embedded over exact rationals:
a raster is a function `Fin M → Fin N → ℚ` (latitude-major grid), a NetCDF
file is its lat/lon coordinate arrays together with a time-ordered list of
rasters, and the numpy/xarray operations used by the source (elementwise
mean/max/min along time, `np.allclose`, `np.meshgrid` + `flatten`,
`reshape(-1, n).mean(axis=0)`) are translated pointwise.  Fallible code is
embedded with `Except`, matching the `raise` statements of the source.
-/

set_option maxHeartbeats 1000000

namespace CMIP6

/-- A 2-D (lat, lon) raster of exact rational cell values. -/
abbrev Raster (M N : Nat) := Fin M → Fin N → ℚ

/-- Computable absolute value on ℚ, the embedding of `numpy.abs`. -/
def absQ (x : ℚ) : ℚ := if x < 0 then -x else x

/-! ## file_handler.py -/

/-- Try to match the regular expression `_(\d{4})_` (config.YEAR_PATTERN)
at the head of the character list: an underscore, exactly four ASCII
digits, then an underscore.  Returns the four-digit number on success. -/
def matchYearAt : List Char → Option Nat
  | '_' :: a :: b :: c :: d :: '_' :: _ =>
    if a.isDigit ∧ b.isDigit ∧ c.isDigit ∧ d.isDigit then
      some ((a.toNat - 48) * 1000 + (b.toNat - 48) * 100 + (c.toNat - 48) * 10 + (d.toNat - 48))
    else none
  | _ => none

/-- Leftmost match of `_(\d{4})_`, as `re.search` finds it: try every start
position from the left and return the first success. -/
def searchYear : List Char → Option Nat
  | [] => none
  | c :: rest =>
    match matchYearAt (c :: rest) with
    | some y => some y
    | none => searchYear rest

/-- `extract_year_from_filename` (file_handler.py:11-30): `re.search` of
config.YEAR_PATTERN over the filename.  The Python function raises
ValueError when there is no match; `discover_nc_files` catches exactly that
error, so the embedding returns `none` for it. -/
def extract_year_from_filename (name : String) : Option Nat :=
  searchYear name.toList

/-- Membership in `input_dir.glob("*.nc")` (file_handler.py:57): the name
ends in ".nc" (its reversed character list begins with "cn.").  Unlike the
`glob` module, `pathlib.Path.glob` has no hidden-file rule: `*` matches a
leading dot, so `.hidden_2035_.nc` and even `.nc` itself are enumerated. -/
def isNcName (name : String) : Bool :=
  List.isPrefixOf ['c', 'n', '.'] name.toList.reverse

/-- The three distinct failures of `discover_nc_files` (file_handler.py):
`dirNotFound` is the FileNotFoundError of line 52, `noNcFiles` the
ValueError "No NetCDF files found..." of line 60, `noYears` the ValueError
"Could not extract years from any files..." of line 75. -/
inductive DiscoverError where
  | dirNotFound
  | noNcFiles
  | noYears
deriving DecidableEq

/-- The per-file loop of file_handler.py:65-72: keep each .nc file whose
year is extractable, paired with its year; skip the rest (the ValueError
of `extract_year_from_filename` is caught and only printed). -/
def filesWithYears (files : List String) : List (String × Nat) :=
  (files.filter isNcName).filterMap
    (fun f => (extract_year_from_filename f).map (fun y => (f, y)))

/-- `discover_nc_files` (file_handler.py:33-82).  The directory is
abstracted to its existence flag plus the list of names it contains; the
returned pairs are sorted ascending by year (`files_with_years.sort`,
a stable sort on the year key). -/
def discover_nc_files (dirExists : Bool) (files : List String) :
    Except DiscoverError (List (String × Nat)) :=
  if dirExists then
    if (files.filter isNcName).isEmpty then .error .noNcFiles
    else if (filesWithYears files).isEmpty then .error .noYears
    else .ok ((filesWithYears files).insertionSort (fun a b => a.2 ≤ b.2))
  else .error .dirNotFound

/-- A file as seen by `validate_coordinate_consistency`: `none` when
opening/reading it raises (the netCDF4 calls of file_handler.py:108-116),
otherwise its lat and lon coordinate arrays. -/
abbrev VcFile := Option (List ℚ × List ℚ)

/-- Embedding of `abs(a - b).max()` over two equal-length coordinate
arrays (file_handler.py:123-124); diffs are nonnegative so folding from 0
returns the maximum difference. -/
def maxAbsDiff (a b : List ℚ) : ℚ :=
  ((a.zip b).map (fun p => absQ (p.1 - p.2))).foldl max 0

/-- The per-file loop of `validate_coordinate_consistency`
(file_handler.py:113-126).  A file that fails to read raises, and the
surrounding `except` returns True, so `none` yields `true`;
`.max()` of an empty difference array also raises, hence the empty-array
guard also yields `true`.  Dimension or value mismatch returns `false`. -/
def vcLoop (first : List ℚ × List ℚ) : List VcFile → Bool
  | [] => true
  | none :: _ => true
  | some g :: rest =>
    if g.1.length = first.1.length ∧ g.2.length = first.2.length then
      if g.1.length = 0 ∨ g.2.length = 0 then true
      else if maxAbsDiff g.1 first.1 < 1/100 ∧ maxAbsDiff g.2 first.2 < 1/100 then
        vcLoop first rest
      else false
    else false

/-- `validate_coordinate_consistency` (file_handler.py:85-132): returns
True for fewer than two paths; otherwise reads the first file as reference
(an exception yields True) and checks only `file_paths[1:min(5, len)]`,
i.e. at most the four files after the reference. -/
def validate_coordinate_consistency (files : List VcFile) : Bool :=
  if files.length < 2 then true
  else
    match files with
    | [] => true
    | none :: _ => true
    | some first :: rest => vcLoop first (rest.take 4)

/-- Step 2 of `process_files` (merge_nc_to_excel.py:70-75) as a function of
the validation verdict: first component is whether the
"WARNING: Coordinate inconsistency detected. Proceeding anyway..." line is
printed, second is whether the pipeline proceeds to the merge step
(it always does; no branch returns or exits there). -/
def process_step2 (valid : Bool) : Bool × Bool := (!valid, true)

/-! ## nc_reader.py -/

/-- A NetCDF file opened by `read_nc_file`, reduced to what
`merge_nc_files` uses: the lat and lon coordinate arrays and the
time-ordered stack of daily rasters of the requested variable.
`len(datasets[i])` in the source is the size of the leading (time)
dimension, i.e. `data.length` here. -/
structure NcFile (M N : Nat) where
  lat : Fin M → ℚ
  lon : Fin N → ℚ
  data : List (Raster M N)

/-- `np.allclose(a, b, atol)` (nc_reader.py:79-88): elementwise
`|a - b| ≤ atol + rtol * |b|`, where rtol keeps numpy's default 1e-05
because the source passes only `atol=0.01`. -/
def allcloseQ {n : Nat} (a b : Fin n → ℚ) (atol rtol : ℚ) : Bool :=
  decide (∀ i, absQ (a i - b i) ≤ atol + rtol * absQ (b i))

/-- Whether a file's grid passes the `merge_nc_files` coordinate check
against the reference grid of the first file (nc_reader.py:79-90). -/
def gridClose {M N : Nat} (f ref : NcFile M N) : Bool :=
  allcloseQ f.lat ref.lat (1/100) (1/100000) && allcloseQ f.lon ref.lon (1/100) (1/100000)

/-- The ValueError message of nc_reader.py:91-94; the loop enumerates
`datasets[1:]` starting the index at 1 and prints `i+1`. -/
def coordMismatchMsg (i : Nat) : String :=
  "Coordinate mismatch detected in file " ++ toString (i + 1) ++
    ". All files must have the same lat/lon grid."

/-- The coordinate-validation loop of `merge_nc_files` (nc_reader.py:78-94):
walk the files after the first, failing at the first grid that is not
allclose to the reference. -/
def coordCheckLoop {M N : Nat} (ref : NcFile M N) : Nat → List (NcFile M N) → Except String Unit
  | _, [] => .ok ()
  | i, f :: rest =>
    if gridClose f ref then coordCheckLoop ref (i + 1) rest
    else .error (coordMismatchMsg i)

/-- `merge_nc_files` (nc_reader.py:35-122).  Files arrive already opened
(read failures are upstream of the properties verified here).  The merged
series concatenates every file's rasters along time; with a nonempty
`years` list each file's year is replicated once per time step it holds
(`len(datasets[i])`).  Python treats both `None` and `[]` as falsy, taking
the fallback; the calendar-timestamp tier of the fallback is outside this
embedding (the rasters carry no time coordinate), so the fallback shown is
the last-resort sequential tier of nc_reader.py:115-120. -/
def merge_nc_files {M N : Nat} (files : List (NcFile M N)) (years : List Int) :
    Except String (List (Raster M N) × List Int) :=
  match files with
  | [] => .error "No file paths provided"
  | ref :: rest =>
    match coordCheckLoop ref 1 rest with
    | .error e => .error e
    | .ok _ =>
      .ok ((ref :: rest).flatMap (fun f => f.data),
        if years.isEmpty then
          ((ref :: rest).enum).flatMap
            (fun p => List.replicate p.2.data.length (2000 + (p.1 : Int)))
        else
          ((ref :: rest).zip years).flatMap
            (fun p => List.replicate p.1.data.length p.2))

/-- Sum of the time lengths of the first `i` files: the position in the
merged time axis where file `i`'s block begins. -/
def timeOffset {M N : Nat} (files : List (NcFile M N)) (i : Nat) : Nat :=
  ((files.take i).map (fun f => f.data.length)).sum

/-- `np.unique(years)` (nc_reader.py:150): the distinct values in
ascending order. -/
def uniqueYears (ys : List Int) : List Int :=
  ys.dedup.insertionSort (fun a b => a ≤ b)

/-- `np.where(years == year)[0]` (nc_reader.py:156-158): the ascending
list of time indices whose mapped year equals `y`. -/
def yearIndices (ys : List Int) (y : Int) : List Nat :=
  (List.range ys.length).filter (fun t => ys.getD t 0 == y)

/-- `data_array.isel(time=year_indices)` (nc_reader.py:159): the rasters
at the selected time indices, in index order. -/
def selectYear {M N : Nat} (data : List (Raster M N)) (ys : List Int) (y : Int) :
    List (Raster M N) :=
  (yearIndices ys y).filterMap (fun t => data[t]?)

/-- Maximum of a list of rationals (`DataArray.max` over a nonempty time
slice); the empty case is unreachable in the pipeline. -/
def listMax : List ℚ → ℚ
  | [] => 0
  | x :: xs => xs.foldl max x

/-- Minimum of a list of rationals (`DataArray.min` over a nonempty time
slice); the empty case is unreachable in the pipeline. -/
def listMin : List ℚ → ℚ
  | [] => 0
  | x :: xs => xs.foldl min x

/-- A value of `data_dict` (nc_reader.py:151-173): a 2-D (lat, lon) array
for the reducing modes, or the full 3-D (day, lat, lon) stack for "all". -/
inductive Agg (M N : Nat) where
  | two : Raster M N → Agg M N
  | three : List (Raster M N) → Agg M N

/-- The aggregation dispatch inside the per-year loop of
`extract_coordinate_data` (nc_reader.py:161-171): mean/max/min reduce the
selected time slice elementwise, "all" keeps it, and any other string
raises ValueError "Unknown aggregation method: ...". -/
def aggregateYear {M N : Nat} (mode : String) (sel : List (Raster M N)) :
    Except String (Agg M N) :=
  if mode = "mean" then
    .ok (.two (fun i j => (sel.map (fun f => f i j)).sum / (sel.length : ℚ)))
  else if mode = "max" then
    .ok (.two (fun i j => listMax (sel.map (fun f => f i j))))
  else if mode = "min" then
    .ok (.two (fun i j => listMin (sel.map (fun f => f i j))))
  else if mode = "all" then
    .ok (.three sel)
  else .error ("Unknown aggregation method: " ++ mode)

/-- The per-year loop of `extract_coordinate_data` (nc_reader.py:155-174),
building `data_dict` in `unique_years` order and raising out of the loop
at the first failing year. -/
def extractLoop {M N : Nat} (data : List (Raster M N)) (ys : List Int) (mode : String) :
    List Int → Except String (List (Int × Agg M N))
  | [] => .ok []
  | y :: rest =>
    match aggregateYear mode (selectYear data ys y) with
    | .error e => .error e
    | .ok a =>
      match extractLoop data ys mode rest with
      | .error e => .error e
      | .ok tail => .ok ((y, a) :: tail)

/-- `extract_coordinate_data` (nc_reader.py:125-176), restricted to the
`data_dict` it builds; the lat/lon arrays it also returns are passed
through unchanged and appear explicitly where needed. -/
def extract_coordinate_data {M N : Nat} (data : List (Raster M N)) (ys : List Int)
    (mode : String) : Except String (List (Int × Agg M N)) :=
  extractLoop data ys mode (uniqueYears ys)

/-! ## excel_writer.py and the tabulation of nc_reader.py -/

theorem nPosOfFin {M N : Nat} (k : Fin (M * N)) : 0 < N := by
  rcases Nat.eq_zero_or_pos N with h | h
  · exact absurd k.isLt (by simp [h])
  · exact h

/-- Row-major flattening of a (lat, lon) raster (`ndarray.flatten`): the
entry at flat index `k` is the cell at row `k / N`, column `k % N`. -/
def flattenGrid {M N : Nat} (g : Raster M N) : List ℚ :=
  List.ofFn (fun k : Fin (M * N) =>
    g ⟨k.val / N, Nat.div_lt_of_lt_mul (Nat.mul_comm M N ▸ k.isLt)⟩
      ⟨k.val % N, Nat.mod_lt _ (nPosOfFin k)⟩)

/-- `data_array.reshape(-1, n_lat * n_lon).mean(axis=0)`
(nc_reader.py:223): entry `k` of the result is the mean over the rows of
entry `k` of each row. -/
def meanAxis0 (rows : List (List ℚ)) (width : Nat) : List ℚ :=
  (List.range width).map
    (fun k => (rows.map (fun r => r.getD k 0)).sum / (rows.length : ℚ))

/-- `sorted(data_dict.items())` (nc_reader.py:216): the year/array pairs
in ascending year order (stable, though dict keys are unique). -/
def sortPairs {M N : Nat} (dict : List (Int × Agg M N)) : List (Int × Agg M N) :=
  dict.insertionSort (fun a b => a.1 ≤ b.1)

/-- The column name `f"{variable_name}_{year}"` (nc_reader.py:227). -/
def yearColName (varName : String) (y : Int) : String :=
  varName ++ "_" ++ toString y

/-- The ndim dispatch of nc_reader.py:218-225: a 2-D year array is
flattened directly, a 3-D one is reshaped to (day, M·N) and averaged over
the day axis. -/
def aggColumn {M N : Nat} (a : Agg M N) : List ℚ :=
  match a with
  | .two arr => flattenGrid arr
  | .three days => meanAxis0 (days.map flattenGrid) (M * N)

/-- `prepare_dataframe_data` (nc_reader.py:179-230): the "lat" and "lon"
columns are the flattened `np.meshgrid(lon, lat)` outputs (lat varies along
rows, lon along columns), followed by one column per year in ascending
year order; a 2-D year array is flattened, a 3-D one is first averaged
across its day axis. -/
def prepare_dataframe_data {M N : Nat} (lat : Fin M → ℚ) (lon : Fin N → ℚ)
    (dict : List (Int × Agg M N)) (varName : String) : List (String × List ℚ) :=
  ("lat", flattenGrid (fun (i : Fin M) (_ : Fin N) => lat i)) ::
  ("lon", flattenGrid (fun (_ : Fin M) (j : Fin N) => lon j)) ::
  (sortPairs dict).map (fun p => (yearColName varName p.1, aggColumn p.2))

/-- The column reordering of `write_to_excel` (excel_writer.py:44-46):
"lat" and "lon" first, the remaining columns in their original order. -/
def orderColumns (tbl : List (String × List ℚ)) : List (String × List ℚ) :=
  tbl.filter (fun c => c.1 == "lat") ++ tbl.filter (fun c => c.1 == "lon") ++
    tbl.filter (fun c => c.1 != "lat" && c.1 != "lon")

/-- The sheet-splitting logic of `write_to_excel` (excel_writer.py:51-79),
over an abstract list of rows: above the ceiling, ceil-division many
sheets named `f"{sheet_name}_{i+1}"`, sheet `i` holding
`df.iloc[i*max : min((i+1)*max, len)]`; otherwise one sheet under the
plain name. -/
def write_sheets {α : Type} (rows : List α) (sheetName : String) (maxRows : Nat) :
    List (String × List α) :=
  if rows.length > maxRows then
    (List.range ((rows.length + maxRows - 1) / maxRows)).map
      (fun i => (sheetName ++ "_" ++ toString (i + 1), (rows.drop (i * maxRows)).take maxRows))
  else [(sheetName, rows)]

end CMIP6

namespace CMIP6

/-! ## Lemmas and claim theorems -/

theorem chunksFlatten {α : Type} (c : Nat) (n : Nat) :
    ∀ l : List α, l.length ≤ n * c →
      ((List.range n).map (fun i => (l.drop (i * c)).take c)).flatten = l := by
  induction n with
  | zero =>
    intro l h
    simp only [Nat.zero_mul, Nat.le_zero, List.length_eq_zero] at h
    simp [h]
  | succ n ih =>
    intro l h
    rw [List.range_succ_eq_map, List.map_cons, List.map_map, List.flatten_cons]
    have h1 : (List.range n).map ((fun i => (l.drop (i * c)).take c) ∘ Nat.succ)
        = (List.range n).map (fun i => ((l.drop c).drop (i * c)).take c) := by
      apply List.map_congr_left
      intro i _
      simp only [Function.comp, Nat.succ_eq_add_one]
      rw [List.drop_drop]
      congr 2
      ring
    have hc' : (n + 1) * c = n * c + c := by ring
    rw [hc'] at h
    rw [h1, ih (l.drop c) (by simp only [List.length_drop]; omega)]
    simp [List.take_append_drop]

/-- C6: for a table whose row count exceeds the ceiling, the writer emits
ceil(rows/ceiling) consecutively numbered sheets, sheet k holding exactly
the rows [k*ceiling, (k+1)*ceiling) in order, jointly a partition of the
original rows; with ceiling+1 rows this is two sheets of sizes ceiling
and 1. -/
theorem C6_sheet_split {α : Type} (rows : List α) (name : String) (c : Nat)
    (hc : 0 < c) (hgt : c < rows.length) :
    (write_sheets rows name c).length = (rows.length + c - 1) / c ∧
    (∀ k, k < (write_sheets rows name c).length →
      (write_sheets rows name c).getD k ("", []) =
        (name ++ "_" ++ toString (k + 1), (rows.drop (k * c)).take c)) ∧
    ((write_sheets rows name c).map Prod.snd).flatten = rows ∧
    (rows.length = c + 1 →
      (write_sheets rows name c).length = 2 ∧
      (write_sheets rows name c).map (fun s => s.2.length) = [c, 1]) := by
  have hif : write_sheets rows name c =
      (List.range ((rows.length + c - 1) / c)).map
        (fun i => (name ++ "_" ++ toString (i + 1), (rows.drop (i * c)).take c)) := by
    unfold write_sheets
    rw [if_pos hgt]
  have hlen : (write_sheets rows name c).length = (rows.length + c - 1) / c := by
    rw [hif, List.length_map, List.length_range]
  refine ⟨hlen, ?_, ?_, ?_⟩
  · intro k hk
    rw [hlen] at hk
    rw [hif, List.getD_eq_getElem?_getD, List.getElem?_map, List.getElem?_range hk]
    rfl
  · rw [hif, List.map_map]
    have hcover : rows.length ≤ ((rows.length + c - 1) / c) * c := by
      have hdm := Nat.div_add_mod (rows.length + c - 1) c
      have hr := Nat.mod_lt (rows.length + c - 1) hc
      rw [Nat.mul_comm]
      omega
    exact chunksFlatten c ((rows.length + c - 1) / c) rows hcover
  · intro h2
    have hn : (rows.length + c - 1) / c = 2 := by
      have h3 : rows.length + c - 1 = c * 2 := by omega
      rw [h3, Nat.mul_div_cancel_left _ hc]
    constructor
    · rw [hlen, hn]
    · rw [hif, hn]
      have hr2 : List.range 2 = [0, 1] := rfl
      rw [hr2]
      simp only [List.map_cons, List.map_nil, List.length_take, List.length_drop]
      rw [h2]
      have e0 : c ⊓ (c + 1 - 0 * c) = c := by
        have h4 : c + 1 - 0 * c = c + 1 := by omega
        rw [h4]
        exact inf_eq_left.mpr (by omega)
      have e1 : c ⊓ (c + 1 - 1 * c) = 1 := by
        have h5 : c + 1 - 1 * c = 1 := by omega
        rw [h5]
        exact inf_eq_right.mpr (by omega)
      rw [e0, e1]

/-- The successful branch of `discover_nc_files`: whenever at least one
.nc file yields a year, discovery returns the year-sorted matched pairs. -/
theorem discover_ok_of_matched (files : List String) (h : filesWithYears files ≠ []) :
    discover_nc_files true files =
      .ok ((filesWithYears files).insertionSort (fun a b => a.2 ≤ b.2)) := by
  have hnc : ¬ (files.filter isNcName).isEmpty = true := by
    rw [List.isEmpty_iff]
    intro hx
    exact h (by unfold filesWithYears; rw [hx]; rfl)
  have hwy : ¬ (filesWithYears files).isEmpty = true := by
    rw [List.isEmpty_iff]
    exact h
  unfold discover_nc_files
  rw [if_pos rfl, if_neg hnc, if_neg hwy]

/-- Unpacking membership in the matched-file list: the pair came from an
enumerated .nc file and carries exactly its extracted year. -/
theorem mem_filesWithYears {files : List String} {p : String × Nat}
    (hp : p ∈ filesWithYears files) :
    p.1 ∈ files ∧ isNcName p.1 = true ∧ extract_year_from_filename p.1 = some p.2 := by
  unfold filesWithYears at hp
  rw [List.mem_filterMap] at hp
  obtain ⟨f, hf, hmap⟩ := hp
  rw [Option.map_eq_some'] at hmap
  obtain ⟨y, hy, hpy⟩ := hmap
  rw [List.mem_filter] at hf
  subst hpy
  exact ⟨hf.1, hf.2, by rw [hy]⟩

/-- C5 (counterexample to the claim as stated): with two .nc files
embedding the same year, discovery succeeds with both pairs, and the year
sequence of the result is not strictly ascending. -/
theorem C5_counterexample :
    discover_nc_files true ["a_2035_x.nc", "b_2035_x.nc"] =
      .ok [("a_2035_x.nc", 2035), ("b_2035_x.nc", 2035)] ∧
    ¬ (List.map Prod.snd
        [(("a_2035_x.nc", 2035) : String × Nat), ("b_2035_x.nc", 2035)]).Sorted (· < ·) :=
  ⟨rfl, by decide⟩

/-- C5 (amended): for an existing directory in which at least one
enumerated .nc file has an extractable year, discovery returns exactly one
(path, year) pair per enumerated .nc file whose name matches the year
pattern — a permutation of those pairs, hence exactly N of them — sorted
in non-decreasing (ascending, though not necessarily strictly) year order;
files that do not match contribute no pair. -/
theorem C5_discovery_sorted_pairs (files : List String)
    (h : filesWithYears files ≠ []) :
    ∃ l, discover_nc_files true files = .ok l ∧
      l.Perm (filesWithYears files) ∧
      l.length = (filesWithYears files).length ∧
      (l.map Prod.snd).Sorted (· ≤ ·) ∧
      ∀ p ∈ l, p.1 ∈ files ∧ isNcName p.1 = true ∧
        extract_year_from_filename p.1 = some p.2 := by
  haveI : IsTotal (String × Nat) (fun a b => a.2 ≤ b.2) := ⟨fun a b => Nat.le_total a.2 b.2⟩
  haveI : IsTrans (String × Nat) (fun a b => a.2 ≤ b.2) :=
    ⟨fun _ _ _ hab hbc => Nat.le_trans hab hbc⟩
  refine ⟨_, discover_ok_of_matched files h, ?_, ?_, ?_, ?_⟩
  · exact List.perm_insertionSort _ _
  · exact (List.perm_insertionSort _ _).length_eq
  · exact List.Pairwise.map Prod.snd (fun _ _ hab => hab)
      (List.sorted_insertionSort (fun a b : String × Nat => a.2 ≤ b.2) (filesWithYears files))
  · intro p hp
    exact mem_filesWithYears ((List.perm_insertionSort _ _).mem_iff.mp hp)

/-- Witness for C5 at a directory with two matching files (out of year
order) and one non-matching file. -/
theorem C5_discovery_sorted_pairs_witness :
    filesWithYears ["b_2036_.nc", "a_2035_.nc", "junk.nc"] ≠ [] ∧
    (∃ l, discover_nc_files true ["b_2036_.nc", "a_2035_.nc", "junk.nc"] = .ok l ∧
      l.Perm (filesWithYears ["b_2036_.nc", "a_2035_.nc", "junk.nc"]) ∧
      l.length = (filesWithYears ["b_2036_.nc", "a_2035_.nc", "junk.nc"]).length ∧
      (l.map Prod.snd).Sorted (· ≤ ·) ∧
      ∀ p ∈ l, p.1 ∈ ["b_2036_.nc", "a_2035_.nc", "junk.nc"] ∧ isNcName p.1 = true ∧
        extract_year_from_filename p.1 = some p.2) :=
  ⟨by decide, C5_discovery_sorted_pairs ["b_2036_.nc", "a_2035_.nc", "junk.nc"] (by decide)⟩

/-- C9: discovery's failure modes are distinguished: a missing directory
fails with the FileNotFoundError before looking at any file, zero
enumerated .nc files fails with the "No NetCDF files found" ValueError,
all years failing to extract fails with the distinct "Could not extract
years" ValueError, and otherwise extraction failures are recovered locally
(the run succeeds and only files with extracted years appear). -/
theorem C9_discovery_error_discrimination :
    (∀ files : List String, discover_nc_files false files = .error .dirNotFound) ∧
    (∀ files : List String, files.filter isNcName = [] →
      discover_nc_files true files = .error .noNcFiles) ∧
    (∀ files : List String, files.filter isNcName ≠ [] →
      (∀ f ∈ files.filter isNcName, extract_year_from_filename f = none) →
      discover_nc_files true files = .error .noYears) ∧
    ((DiscoverError.noYears ≠ DiscoverError.noNcFiles) ∧
      (DiscoverError.dirNotFound ≠ DiscoverError.noNcFiles) ∧
      (DiscoverError.dirNotFound ≠ DiscoverError.noYears)) ∧
    (∀ files : List String, filesWithYears files ≠ [] →
      ∃ l, discover_nc_files true files = .ok l ∧
        ∀ p ∈ l, isNcName p.1 = true ∧ extract_year_from_filename p.1 = some p.2) := by
  refine ⟨?_, ?_, ?_, ⟨by decide, by decide, by decide⟩, ?_⟩
  · intro files
    rfl
  · intro files hf
    unfold discover_nc_files
    rw [if_pos rfl, if_pos (by rw [List.isEmpty_iff]; exact hf)]
  · intro files hnc hall
    have hwy : filesWithYears files = [] := by
      unfold filesWithYears
      rw [List.filterMap_eq_nil_iff]
      intro f hf
      rw [hall f hf]
      rfl
    unfold discover_nc_files
    rw [if_pos rfl, if_neg (by rw [List.isEmpty_iff]; exact hnc),
      if_pos (by rw [List.isEmpty_iff]; exact hwy)]
  · intro files h
    exact ⟨_, discover_ok_of_matched files h, fun p hp =>
      (mem_filesWithYears ((List.perm_insertionSort _ _).mem_iff.mp hp)).2⟩

/-- Witness for C9: each failure mode exercised at a concrete directory,
local recovery of a failing file among a succeeding one, and the
pathlib-glob corner cases: a bare ".nc" is enumerated (so the directory
fails with the no-extractable-years error, not the no-files one) and a
hidden ".hidden_2035_.nc" is discovered successfully. -/
theorem C9_discovery_error_discrimination_witness :
    discover_nc_files false ["a_2035_.nc"] = .error .dirNotFound ∧
    (["notes.txt"] : List String).filter isNcName = [] ∧
    discover_nc_files true ["notes.txt"] = .error .noNcFiles ∧
    discover_nc_files true ["nodigits.nc"] = .error .noYears ∧
    discover_nc_files true [".nc"] = .error .noYears ∧
    (∃ l, discover_nc_files true ["a_2035_.nc", "nodigits.nc"] = .ok l ∧
      ∀ p ∈ l, isNcName p.1 = true ∧ extract_year_from_filename p.1 = some p.2) ∧
    (∃ l, discover_nc_files true [".hidden_2035_.nc"] = .ok l ∧
      ∀ p ∈ l, isNcName p.1 = true ∧ extract_year_from_filename p.1 = some p.2) :=
  ⟨C9_discovery_error_discrimination.1 ["a_2035_.nc"],
   by decide,
   C9_discovery_error_discrimination.2.1 ["notes.txt"] (by decide),
   C9_discovery_error_discrimination.2.2.1 ["nodigits.nc"] (by decide) (by decide),
   C9_discovery_error_discrimination.2.2.1 [".nc"] (by decide) (by decide),
   C9_discovery_error_discrimination.2.2.2.2 ["a_2035_.nc", "nodigits.nc"] (by decide),
   C9_discovery_error_discrimination.2.2.2.2 [".hidden_2035_.nc"] (by decide)⟩

/-- C10: the lightweight pre-merge check never halts the pipeline: it is
vacuously True below two files, depends only on the first five files
(reference plus at most four inspected), returns True the moment a read
raises, and a False verdict merely prints the warning while the driver
proceeds to the merge step regardless. -/
theorem C10_validate_never_halts :
    (∀ files : List VcFile, files.length < 2 →
      validate_coordinate_consistency files = true) ∧
    (∀ files : List VcFile,
      validate_coordinate_consistency files =
        validate_coordinate_consistency (files.take 5)) ∧
    (∀ files : List VcFile, 2 ≤ files.length → files.head? = some none →
      validate_coordinate_consistency files = true) ∧
    (∀ (first : List ℚ × List ℚ) (rest : List VcFile),
      vcLoop first (none :: rest) = true) ∧
    (∀ v : Bool, (process_step2 v).2 = true ∧ ((process_step2 v).1 = true ↔ v = false)) := by
  refine ⟨?_, ?_, ?_, ?_, ?_⟩
  · intro files h
    unfold validate_coordinate_consistency
    rw [if_pos h]
  · intro files
    unfold validate_coordinate_consistency
    match files with
    | [] => rfl
    | [f] => rfl
    | f :: g :: rest =>
      have h1 : ¬ (f :: g :: rest).length < 2 := by
        simp only [List.length_cons]
        omega
      have h2 : ¬ ((f :: g :: rest).take 5).length < 2 := by
        simp only [List.length_take, List.length_cons]
        omega
      rw [if_neg h1, if_neg h2]
      cases f with
      | none => rfl
      | some first =>
        show vcLoop first ((g :: rest).take 4) = vcLoop first ((g :: rest.take 3).take 4)
        congr 1
        show g :: rest.take 3 = g :: (rest.take 3).take 3
        rw [List.take_take]
        norm_num
  · intro files h2 hh
    match files, hh with
    | none :: rest, _ =>
      unfold validate_coordinate_consistency
      rw [if_neg (by omega)]
  · intro first rest
    rfl
  · intro v
    cases v with
    | false => exact ⟨rfl, by simp [process_step2]⟩
    | true => exact ⟨rfl, by simp [process_step2]⟩

/-- Witness for C10: the vacuous small case, the prefix-dependence at a
six-file list, the exception behavior, and the driver's verdict handling,
all at concrete inputs. -/
theorem C10_validate_never_halts_witness :
    (([] : List VcFile).length < 2 ∧ validate_coordinate_consistency [] = true) ∧
    validate_coordinate_consistency
        [some ([1], [2]), some ([1], [2]), some ([1], [2]), some ([1], [2]),
          some ([1], [2]), some ([99], [99])] =
      validate_coordinate_consistency
        (([some ([1], [2]), some ([1], [2]), some ([1], [2]), some ([1], [2]),
          some ([1], [2]), some ([99], [99])] : List VcFile).take 5) ∧
    (2 ≤ ([none, some ([1], [2])] : List VcFile).length ∧
      validate_coordinate_consistency [none, some ([1], [2])] = true) ∧
    vcLoop ([1], [2]) [none] = true ∧
    (process_step2 false).2 = true :=
  ⟨⟨by decide, C10_validate_never_halts.1 [] (by decide)⟩,
   C10_validate_never_halts.2.1 _,
   ⟨by decide, C10_validate_never_halts.2.2.1 [none, some ([1], [2])] (by decide) rfl⟩,
   C10_validate_never_halts.2.2.2.1 ([1], [2]) [],
   (C10_validate_never_halts.2.2.2.2 false).1⟩

/-- Witness for C6 at rows = [1,2,3], ceiling 2, sheet name "Data". -/
theorem C6_sheet_split_witness :
    (0 < 2 ∧ 2 < ([1, 2, 3] : List Nat).length) ∧
    ((write_sheets [1, 2, 3] "Data" 2).length = (([1, 2, 3] : List Nat).length + 2 - 1) / 2 ∧
    (∀ k, k < (write_sheets [1, 2, 3] "Data" 2).length →
      (write_sheets ([1, 2, 3] : List Nat) "Data" 2).getD k ("", []) =
        ("Data" ++ "_" ++ toString (k + 1), (([1, 2, 3] : List Nat).drop (k * 2)).take 2)) ∧
    ((write_sheets ([1, 2, 3] : List Nat) "Data" 2).map Prod.snd).flatten = [1, 2, 3] ∧
    (([1, 2, 3] : List Nat).length = 2 + 1 →
      (write_sheets ([1, 2, 3] : List Nat) "Data" 2).length = 2 ∧
      (write_sheets ([1, 2, 3] : List Nat) "Data" 2).map (fun s => s.2.length) = [2, 1])) :=
  ⟨⟨by decide, by decide⟩, C6_sheet_split [1, 2, 3] "Data" 2 (by decide) (by decide)⟩

theorem absQ_nonneg (x : ℚ) : 0 ≤ absQ x := by
  unfold absQ
  split <;> linarith

theorem allcloseQ_self {n : Nat} (a : Fin n → ℚ) (atol rtol : ℚ)
    (ha : 0 ≤ atol) (hr : 0 ≤ rtol) : allcloseQ a a atol rtol = true := by
  unfold allcloseQ
  rw [decide_eq_true_eq]
  intro i
  have h0 : absQ (a i - a i) = 0 := by simp [absQ]
  rw [h0]
  have h1 := absQ_nonneg (a i)
  have h2 : 0 ≤ rtol * absQ (a i) := mul_nonneg hr h1
  linarith

theorem gridClose_of_same_grid {M N : Nat} (f ref : NcFile M N)
    (hlat : f.lat = ref.lat) (hlon : f.lon = ref.lon) : gridClose f ref = true := by
  unfold gridClose
  rw [hlat, hlon, allcloseQ_self _ _ _ (by norm_num) (by norm_num),
    allcloseQ_self _ _ _ (by norm_num) (by norm_num)]
  rfl

theorem coordCheckLoop_ok {M N : Nat} (ref : NcFile M N) :
    ∀ rest : List (NcFile M N), (∀ f ∈ rest, gridClose f ref = true) →
      ∀ i, coordCheckLoop ref i rest = .ok () := by
  intro rest
  induction rest with
  | nil => intro _ i; rfl
  | cons f fs ih =>
    intro h i
    unfold coordCheckLoop
    rw [if_pos (h f (List.mem_cons_self f fs))]
    exact ih (fun g hg => h g (List.mem_cons_of_mem f hg)) (i + 1)

theorem coordCheckLoop_error {M N : Nat} (ref : NcFile M N) :
    ∀ rest : List (NcFile M N), (∃ f ∈ rest, gridClose f ref = false) →
      ∀ i, ∃ j, ∃ hj : j < rest.length,
        gridClose (rest.get ⟨j, hj⟩) ref = false ∧
        (∀ j2, ∀ hj2 : j2 < rest.length, j2 < j → gridClose (rest.get ⟨j2, hj2⟩) ref = true) ∧
        coordCheckLoop ref i rest = .error (coordMismatchMsg (i + j)) := by
  intro rest
  induction rest with
  | nil =>
    intro h
    obtain ⟨f, hf, _⟩ := h
    exact absurd hf (List.not_mem_nil f)
  | cons f fs ih =>
    intro h i
    by_cases hf : gridClose f ref = true
    · have hfs : ∃ g ∈ fs, gridClose g ref = false := by
        obtain ⟨g, hg, hgf⟩ := h
        cases List.mem_cons.mp hg with
        | inl he =>
          subst he
          rw [hf] at hgf
          cases hgf
        | inr hm => exact ⟨g, hm, hgf⟩
      obtain ⟨j, hj, hbad, hmin, heq⟩ := ih hfs (i + 1)
      refine ⟨j + 1, by simpa using Nat.succ_lt_succ hj, by simpa using hbad, ?_, ?_⟩
      · intro j2 hj2 hlt
        cases j2 with
        | zero => simpa using hf
        | succ j3 =>
          have hj3 : j3 < fs.length := Nat.lt_of_succ_lt_succ hj2
          have hlt3 : j3 < j := by omega
          simpa using hmin j3 hj3 hlt3
      · unfold coordCheckLoop
        rw [if_pos hf, heq]
        have harith : i + 1 + j = i + (j + 1) := by omega
        rw [harith]
    · have hf2 : gridClose f ref = false := by
        revert hf
        cases gridClose f ref <;> simp
      refine ⟨0, Nat.succ_pos _, by simpa using hf2, ?_, ?_⟩
      · intro j2 hj2 hlt
        omega
      · unfold coordCheckLoop
        rw [if_neg hf, Nat.add_zero]

theorem merge_ok {M N : Nat} (ref : NcFile M N) (rest : List (NcFile M N))
    (years : List Int) (hpass : ∀ f ∈ rest, gridClose f ref = true) (hy : years ≠ []) :
    merge_nc_files (ref :: rest) years =
      .ok ((ref :: rest).flatMap (fun f => f.data),
        ((ref :: rest).zip years).flatMap (fun p => List.replicate p.1.data.length p.2)) := by
  have he : years.isEmpty = false := by
    cases years with
    | nil => exact absurd rfl hy
    | cons y ys => rfl
  simp only [merge_nc_files]
  rw [coordCheckLoop_ok ref rest hpass 1, he]
  rfl

theorem yearsFlat_length {M N : Nat} :
    ∀ (files : List (NcFile M N)) (years : List Int), years.length = files.length →
      ((files.zip years).flatMap (fun p => List.replicate p.1.data.length p.2)).length
        = ((files.map (fun f => f.data.length)).sum) := by
  intro files
  induction files with
  | nil =>
    intro years _
    rfl
  | cons f fs ih =>
    intro years hlen
    cases years with
    | nil => simp at hlen
    | cons y ys =>
      simp only [List.zip_cons_cons, List.flatMap_cons, List.length_append,
        List.length_replicate, List.map_cons, List.sum_cons]
      rw [ih ys (by simpa using hlen)]

theorem zipReplicate_getD {M N : Nat} :
    ∀ (files : List (NcFile M N)) (years : List Int), years.length = files.length →
      ∀ i, ∀ hi : i < files.length, ∀ d, d < (files.get ⟨i, hi⟩).data.length →
        (((files.zip years).flatMap (fun p => List.replicate p.1.data.length p.2)).getD
            (timeOffset files i + d) 0 = years.getD i 0) ∧
        ((files.flatMap (fun f => f.data)).getD (timeOffset files i + d) (fun _ _ => 0) =
          (files.get ⟨i, hi⟩).data.getD d (fun _ _ => 0)) := by
  intro files
  induction files with
  | nil =>
    intro years _ i hi
    exact absurd hi (by simp)
  | cons f fs ih =>
    intro years hlen i hi d hd
    cases years with
    | nil => simp at hlen
    | cons y ys =>
      cases i with
      | zero =>
        have hd0 : d < f.data.length := hd
        have hoff : timeOffset (f :: fs) 0 + d = d := by
          unfold timeOffset
          simp
        rw [hoff]
        constructor
        · simp only [List.zip_cons_cons, List.flatMap_cons]
          rw [List.getD_append _ _ _ d (by simpa using hd0)]
          rw [List.getD_eq_getElem?_getD, List.getElem?_replicate, if_pos hd0]
          rfl
        · simp only [List.flatMap_cons]
          rw [List.getD_append _ _ _ d hd0]
          rfl
      | succ i2 =>
        have hi2 : i2 < fs.length := Nat.lt_of_succ_lt_succ hi
        have hd2 : d < (fs.get ⟨i2, hi2⟩).data.length := by simpa using hd
        have hoff : timeOffset (f :: fs) (i2 + 1) = f.data.length + timeOffset fs i2 := by
          unfold timeOffset
          rw [List.take_succ_cons]
          simp
        have harith : timeOffset (f :: fs) (i2 + 1) + d
            = f.data.length + (timeOffset fs i2 + d) := by
          rw [hoff]
          omega
        rw [harith]
        obtain ⟨ihy, ihm⟩ := ih ys (by simpa using hlen) i2 hi2 d hd2
        constructor
        · simp only [List.zip_cons_cons, List.flatMap_cons]
          rw [List.getD_append_right _ _ _ _ (by simp)]
          simp only [List.length_replicate, Nat.add_sub_cancel_left]
          simpa using ihy
        · simp only [List.flatMap_cons]
          rw [List.getD_append_right _ _ _ _ (by omega)]
          simp only [Nat.add_sub_cancel_left]
          simpa using ihm

/-- C3: merging files with a common grid and one supplied year label per
file yields a time axis of length the sum of the per-file time lengths,
and a time-to-year mapping in which every position inside file i's block
carries exactly file i's year label (and the merged raster at that
position is file i's raster) — each label replicated once per time step
actually present in that file. -/
theorem C3_merge_time_axis {M N : Nat} (ref : NcFile M N) (rest : List (NcFile M N))
    (years : List Int) (hlen : years.length = rest.length + 1)
    (hpass : ∀ f ∈ rest, gridClose f ref = true) :
    ∃ merged ty, merge_nc_files (ref :: rest) years = .ok (merged, ty) ∧
      merged.length = (((ref :: rest).map (fun f => f.data.length)).sum) ∧
      ty.length = merged.length ∧
      ∀ i, ∀ hi : i < (ref :: rest).length, ∀ d,
        d < ((ref :: rest).get ⟨i, hi⟩).data.length →
        ty.getD (timeOffset (ref :: rest) i + d) 0 = years.getD i 0 ∧
        merged.getD (timeOffset (ref :: rest) i + d) (fun _ _ => 0) =
          ((ref :: rest).get ⟨i, hi⟩).data.getD d (fun _ _ => 0) := by
  have hy : years ≠ [] := by
    intro h
    rw [h] at hlen
    simp at hlen
  have hlen2 : years.length = (ref :: rest).length := by simpa using hlen
  refine ⟨_, _, merge_ok ref rest years hpass hy, ?_, ?_, ?_⟩
  · simp only [List.length_flatMap]
    rfl
  · rw [yearsFlat_length (ref :: rest) years hlen2]
    simp only [List.length_flatMap]
    rfl
  · intro i hi d hd
    exact zipReplicate_getD (ref :: rest) years hlen2 i hi d hd

/-- A two-day file on a shared 1×1 grid, for the C3 witness. -/
def fileW1 : NcFile 1 1 := ⟨fun _ => -35, fun _ => 140, [fun _ _ => 1, fun _ _ => 2]⟩

/-- A one-day file on the same 1×1 grid, for the C3 witness. -/
def fileW2 : NcFile 1 1 := ⟨fun _ => -35, fun _ => 140, [fun _ _ => 6]⟩

/-- Witness for C3 at two concrete files with 2 and 1 time steps. -/
theorem C3_merge_time_axis_witness :
    (([2035, 2036] : List Int).length = ([fileW2] : List (NcFile 1 1)).length + 1 ∧
      (∀ f ∈ ([fileW2] : List (NcFile 1 1)), gridClose f fileW1 = true)) ∧
    (∃ merged ty, merge_nc_files (fileW1 :: [fileW2]) [2035, 2036] = .ok (merged, ty) ∧
      merged.length = (((fileW1 :: [fileW2]).map (fun f => f.data.length)).sum) ∧
      ty.length = merged.length ∧
      ∀ i, ∀ hi : i < (fileW1 :: [fileW2]).length, ∀ d,
        d < ((fileW1 :: [fileW2]).get ⟨i, hi⟩).data.length →
        ty.getD (timeOffset (fileW1 :: [fileW2]) i + d) 0 = ([2035, 2036] : List Int).getD i 0 ∧
        merged.getD (timeOffset (fileW1 :: [fileW2]) i + d) (fun _ _ => 0) =
          ((fileW1 :: [fileW2]).get ⟨i, hi⟩).data.getD d (fun _ _ => 0)) :=
  have hpass : ∀ f ∈ ([fileW2] : List (NcFile 1 1)), gridClose f fileW1 = true := by
    intro f hf
    rw [List.mem_singleton.mp hf]
    exact gridClose_of_same_grid fileW2 fileW1 rfl rfl
  ⟨⟨rfl, hpass⟩, C3_merge_time_axis fileW1 [fileW2] [2035, 2036] rfl hpass⟩

/-- allclose over a 1×1 grid reduces to a single inequality. -/
theorem allcloseQ_const1 (x y atol rtol : ℚ) (h : absQ (x - y) ≤ atol + rtol * absQ y) :
    allcloseQ (fun _ : Fin 1 => x) (fun _ => y) atol rtol = true := by
  unfold allcloseQ
  rw [decide_eq_true_eq]
  intro i
  exact h

/-- Reference file with latitude 90, for the C4 counterexample. -/
def fileA90 : NcFile 1 1 := ⟨fun _ => 90, fun _ => 0, [fun _ _ => 1]⟩

/-- File whose latitude differs from the reference by 21/2000 = 0.0105,
for the C4 counterexample. -/
def fileB90 : NcFile 1 1 := ⟨fun _ => 90 + 21 / 2000, fun _ => 0, [fun _ _ => 2]⟩

/-- The 0.0105 latitude offset passes np.allclose(atol=0.01) because of
numpy's default rtol: 0.0105 ≤ 0.01 + 1e-05·90. -/
theorem gridClose_B90_A90 : gridClose fileB90 fileA90 = true := by
  show (allcloseQ (fun _ : Fin 1 => (90 : ℚ) + 21 / 2000) (fun _ => 90) (1/100) (1/100000) &&
      allcloseQ (fun _ : Fin 1 => (0 : ℚ)) (fun _ => 0) (1/100) (1/100000)) = true
  rw [allcloseQ_const1 _ _ _ _ (by simp only [absQ]; norm_num),
    allcloseQ_const1 _ _ _ _ (by simp only [absQ]; norm_num)]
  rfl

/-- C4 (counterexample to the claim as stated): the second file's latitude
differs from the first file's by more than the absolute tolerance 0.01,
yet the merge succeeds (no CoordinateMismatch), because `np.allclose`
keeps its default relative tolerance 1e-05 on top of atol=0.01. -/
theorem C4_counterexample :
    absQ (fileB90.lat 0 - fileA90.lat 0) > 1/100 ∧
    merge_nc_files [fileA90, fileB90] [2035, 2036] =
      .ok ([fileA90, fileB90].flatMap (fun f => f.data), [2035, 2036]) := by
  constructor
  · show absQ ((90 + 21 / 2000 : ℚ) - 90) > 1/100
    simp only [absQ]
    norm_num
  · have hpass : ∀ f ∈ ([fileB90] : List (NcFile 1 1)), gridClose f fileA90 = true := by
      intro f hf
      rw [List.mem_singleton.mp hf]
      exact gridClose_B90_A90
    rw [merge_ok fileA90 [fileB90] [2035, 2036] hpass (by simp)]
    rfl

/-- C4 (amended): whenever some later file's grid fails the np.allclose
check against the first file's grid — absolute tolerance 0.01 plus
numpy's default relative tolerance 1e-05·|reference| — the merge fails
with the CoordinateMismatch error naming the position of the first
offending file, and no merged output is produced. -/
theorem C4_mismatch_fails {M N : Nat} (ref : NcFile M N) (rest : List (NcFile M N))
    (years : List Int) (hbad : ∃ f ∈ rest, gridClose f ref = false) :
    ∃ j, ∃ hj : j < rest.length,
      gridClose (rest.get ⟨j, hj⟩) ref = false ∧
      (∀ j2, ∀ hj2 : j2 < rest.length, j2 < j → gridClose (rest.get ⟨j2, hj2⟩) ref = true) ∧
      merge_nc_files (ref :: rest) years = .error (coordMismatchMsg (j + 1)) := by
  obtain ⟨j, hj, hbadj, hmin, heq⟩ := coordCheckLoop_error ref rest hbad 1
  rw [Nat.add_comm 1 j] at heq
  refine ⟨j, hj, hbadj, hmin, ?_⟩
  simp only [merge_nc_files]
  rw [heq]

/-- Reference file with latitude 0, for the C4 witness. -/
def fileR0 : NcFile 1 1 := ⟨fun _ => 0, fun _ => 0, [fun _ _ => 1]⟩

/-- File with latitude 1, a full degree off the reference, for the C4
witness. -/
def fileBad : NcFile 1 1 := ⟨fun _ => 1, fun _ => 0, [fun _ _ => 2]⟩

/-- A one-degree latitude offset fails np.allclose(atol=0.01, rtol=1e-05). -/
theorem gridClose_Bad_R0 : gridClose fileBad fileR0 = false := by
  show (allcloseQ (fun _ : Fin 1 => (1 : ℚ)) (fun _ => 0) (1/100) (1/100000) &&
      allcloseQ (fun _ : Fin 1 => (0 : ℚ)) (fun _ => 0) (1/100) (1/100000)) = false
  have h : allcloseQ (fun _ : Fin 1 => (1 : ℚ)) (fun _ => 0) (1/100) (1/100000) = false := by
    unfold allcloseQ
    rw [decide_eq_false_iff_not]
    intro hall
    have h1 := hall 0
    simp only [absQ] at h1
    norm_num at h1
  rw [h, Bool.false_and]

/-- Witness for C4 at a concrete mismatching pair of files. -/
theorem C4_mismatch_fails_witness :
    (∃ f ∈ ([fileBad] : List (NcFile 1 1)), gridClose f fileR0 = false) ∧
    (∃ j, ∃ hj : j < ([fileBad] : List (NcFile 1 1)).length,
      gridClose (([fileBad] : List (NcFile 1 1)).get ⟨j, hj⟩) fileR0 = false ∧
      (∀ j2, ∀ hj2 : j2 < ([fileBad] : List (NcFile 1 1)).length, j2 < j →
        gridClose (([fileBad] : List (NcFile 1 1)).get ⟨j2, hj2⟩) fileR0 = true) ∧
      merge_nc_files (fileR0 :: [fileBad]) [2035, 2036] = .error (coordMismatchMsg (j + 1))) :=
  ⟨⟨fileBad, List.mem_singleton_self fileBad, gridClose_Bad_R0⟩,
   C4_mismatch_fails fileR0 [fileBad] [2035, 2036]
     ⟨fileBad, List.mem_singleton_self fileBad, gridClose_Bad_R0⟩⟩

theorem mem_uniqueYears {ys : List Int} {y : Int} : y ∈ uniqueYears ys ↔ y ∈ ys := by
  unfold uniqueYears
  rw [(List.perm_insertionSort _ _).mem_iff, List.mem_dedup]

theorem uniqueYears_nodup (ys : List Int) : (uniqueYears ys).Nodup :=
  (List.nodup_dedup ys).perm (List.perm_insertionSort _ _).symm

theorem uniqueYears_sorted (ys : List Int) : (uniqueYears ys).Sorted (· ≤ ·) :=
  List.sorted_insertionSort _ _

theorem aggregateYear_mean {M N : Nat} (sel : List (Raster M N)) :
    aggregateYear "mean" sel =
      .ok (.two (fun i j => (sel.map (fun f => f i j)).sum / (sel.length : ℚ))) := rfl

theorem aggregateYear_all {M N : Nat} (sel : List (Raster M N)) :
    aggregateYear "all" sel = .ok (.three sel) := rfl

theorem aggregateYear_unknown {M N : Nat} (mode : String) (h1 : mode ≠ "mean")
    (h2 : mode ≠ "max") (h3 : mode ≠ "min") (h4 : mode ≠ "all") (sel : List (Raster M N)) :
    aggregateYear mode sel = .error ("Unknown aggregation method: " ++ mode) := by
  unfold aggregateYear
  rw [if_neg h1, if_neg h2, if_neg h3, if_neg h4]

theorem extractLoop_ok_map {M N : Nat} (data : List (Raster M N)) (ys : List Int)
    (mode : String) (g : Int → Agg M N)
    (hg : ∀ y, aggregateYear mode (selectYear data ys y) = .ok (g y)) :
    ∀ l : List Int, extractLoop data ys mode l = .ok (l.map (fun y => (y, g y))) := by
  intro l
  induction l with
  | nil => rfl
  | cons y rest ih =>
    unfold extractLoop
    rw [hg y, ih]
    rfl

theorem lookup_map_self {β : Type} (g : Int → β) :
    ∀ (l : List Int) (y : Int), y ∈ l →
      (l.map (fun x => (x, g x))).lookup y = some (g y) := by
  intro l
  induction l with
  | nil =>
    intro y hy
    cases hy
  | cons x xs ih =>
    intro y hy
    by_cases hxy : y = x
    · subst hxy
      simp [List.lookup]
    · have hmem : y ∈ xs := by
        cases List.mem_cons.mp hy with
        | inl h => exact absurd h hxy
        | inr h => exact h
      simp only [List.map_cons, List.lookup]
      rw [(by simpa using hxy : (y == x) = false)]
      exact ih y hmem

theorem yearIndices_cons (y0 : Int) (ys : List Int) (y : Int) :
    yearIndices (y0 :: ys) y =
      (if (y0 == y) = true then 0 :: (yearIndices ys y).map Nat.succ
        else (yearIndices ys y).map Nat.succ) := by
  unfold yearIndices
  simp only [List.length_cons]
  rw [List.range_succ_eq_map, List.filter_cons, List.filter_map]
  have hps : ((fun t => (y0 :: ys).getD t 0 == y) ∘ Nat.succ)
      = (fun t => ys.getD t 0 == y) := by
    funext t
    rfl
  rw [hps]
  rfl

theorem selectYear_eq_zip {M N : Nat} :
    ∀ (data : List (Raster M N)) (ys : List Int), data.length = ys.length →
      ∀ y, selectYear data ys y
        = ((data.zip ys).filter (fun p => p.2 == y)).map Prod.fst := by
  intro data
  induction data with
  | nil =>
    intro ys h y
    cases ys with
    | nil => rfl
    | cons y0 ys2 => simp at h
  | cons f data2 ih =>
    intro ys h y
    cases ys with
    | nil => simp at h
    | cons y0 ys2 =>
      have h2 : data2.length = ys2.length := by simpa using h
      unfold selectYear
      rw [yearIndices_cons]
      have hmap : ((yearIndices ys2 y).map Nat.succ).filterMap
          (fun t => (f :: data2)[t]?) = selectYear data2 ys2 y := by
        rw [List.filterMap_map]
        show List.filterMap (fun t => (f :: data2)[t + 1]?) (yearIndices ys2 y)
          = selectYear data2 ys2 y
        rw [List.filterMap_congr (fun t _ => (List.getElem?_cons_succ :
          (f :: data2)[t + 1]? = data2[t]?))]
        rfl
      by_cases hy0 : (y0 == y) = true
      · rw [if_pos hy0]
        simp only [List.filterMap_cons, List.getElem?_cons_zero, hmap]
        rw [ih ys2 h2 y]
        simp only [List.zip_cons_cons, List.filter_cons, hy0]
        rfl
      · rw [if_neg hy0]
        rw [hmap, ih ys2 h2 y]
        simp only [List.zip_cons_cons, List.filter_cons]
        rw [if_neg hy0]

theorem zipFilter_length_count {M N : Nat} :
    ∀ (data : List (Raster M N)) (ys : List Int), data.length = ys.length →
      ∀ y, ((data.zip ys).filter (fun p => p.2 == y)).length = ys.count y := by
  intro data
  induction data with
  | nil =>
    intro ys h y
    cases ys with
    | nil => rfl
    | cons y0 ys2 => simp at h
  | cons f data2 ih =>
    intro ys h y
    cases ys with
    | nil => simp at h
    | cons y0 ys2 =>
      have h2 : data2.length = ys2.length := by simpa using h
      simp only [List.zip_cons_cons, List.filter_cons, List.count_cons]
      by_cases hy0 : (y0 == y) = true
      · rw [if_pos hy0, List.length_cons, ih ys2 h2 y, if_pos hy0]
      · rw [if_neg hy0, ih ys2 h2 y, if_neg hy0]
        omega

/-- C1: for a merged series whose time axis carries one year label per
time step, aggregation in mode "mean" succeeds, and for every year
present, the stored 2-D array holds at each (lat, lon) cell the arithmetic
mean of exactly the T raster values whose time position is labelled with
that year (T being the number of such positions). -/
theorem C1_mean_aggregation {M N : Nat} (data : List (Raster M N)) (ys : List Int)
    (hlen : data.length = ys.length) (y : Int) (hy : y ∈ ys) :
    ∃ d, extract_coordinate_data data ys "mean" = .ok d ∧
      ∃ sel, sel = ((data.zip ys).filter (fun p => p.2 == y)).map Prod.fst ∧
        sel.length = ys.count y ∧
        d.lookup y =
          some (.two (fun i j => (sel.map (fun f => f i j)).sum / (sel.length : ℚ))) := by
  refine ⟨_, extractLoop_ok_map data ys "mean"
      (fun y2 => .two (fun i j =>
        ((selectYear data ys y2).map (fun f => f i j)).sum /
          ((selectYear data ys y2).length : ℚ)))
      (fun y2 => rfl) (uniqueYears ys), ?_⟩
  refine ⟨selectYear data ys y, selectYear_eq_zip data ys hlen y, ?_, ?_⟩
  · rw [selectYear_eq_zip data ys hlen y, List.length_map,
      zipFilter_length_count data ys hlen y]
  · exact lookup_map_self _ (uniqueYears ys) y (mem_uniqueYears.mpr hy)

/-- Witness for C1 on a 1×1 grid, three days with values 1, 2, 6, the
first two labelled 2035: the 2035 mean is (1+2)/2. -/
theorem C1_mean_aggregation_witness :
    (([fun _ _ => 1, fun _ _ => 2, fun _ _ => 6] : List (Raster 1 1)).length
        = ([2035, 2035, 2036] : List Int).length ∧
      (2035 : Int) ∈ ([2035, 2035, 2036] : List Int)) ∧
    (∃ d, extract_coordinate_data
        ([fun _ _ => 1, fun _ _ => 2, fun _ _ => 6] : List (Raster 1 1))
        [2035, 2035, 2036] "mean" = .ok d ∧
      ∃ sel, sel = ((([fun _ _ => 1, fun _ _ => 2, fun _ _ => 6] : List (Raster 1 1)).zip
          [2035, 2035, 2036]).filter (fun p => p.2 == 2035)).map Prod.fst ∧
        sel.length = ([2035, 2035, 2036] : List Int).count 2035 ∧
        d.lookup 2035 =
          some (.two (fun i j => (sel.map (fun f => f i j)).sum / (sel.length : ℚ)))) :=
  ⟨⟨rfl, by decide⟩,
   C1_mean_aggregation [fun _ _ => 1, fun _ _ => 2, fun _ _ => 6]
     [2035, 2035, 2036] rfl 2035 (by decide)⟩

/-- C8 (counterexample to the claim as stated): with an empty merged time
axis the per-year loop never runs, so the unknown mode "median" is not
rejected — extraction returns an empty mapping instead of failing. -/
theorem C8_counterexample :
    ("median" ∉ (["mean", "max", "min", "all"] : List String)) ∧
    extract_coordinate_data (M := 1) (N := 1) [] [] "median" = .ok [] :=
  ⟨by decide, rfl⟩

/-- C8 (amended): for every mode string outside {"mean", "max", "min",
"all"}, aggregation over a series with at least one time step fails with
the "Unknown aggregation method" ValueError (raised on the first year,
before any reduction result is produced); over an empty series the loop
body never runs and no error is raised. -/
theorem C8_unknown_mode_fails {M N : Nat} (mode : String)
    (hm : mode ∉ (["mean", "max", "min", "all"] : List String))
    (data : List (Raster M N)) (ys : List Int) (hys : ys ≠ []) :
    extract_coordinate_data data ys mode
      = .error ("Unknown aggregation method: " ++ mode) := by
  simp only [List.mem_cons, List.not_mem_nil, or_false, not_or] at hm
  obtain ⟨hm1, hm2, hm3, hm4⟩ := hm
  have hne : uniqueYears ys ≠ [] := by
    cases ys with
    | nil => exact absurd rfl hys
    | cons y ys2 =>
      intro hU
      have hmem : y ∈ uniqueYears (y :: ys2) :=
        mem_uniqueYears.mpr (List.mem_cons_self y ys2)
      rw [hU] at hmem
      cases hmem
  obtain ⟨u, us, hUeq⟩ : ∃ u us, uniqueYears ys = u :: us := by
    cases hU : uniqueYears ys with
    | nil => exact absurd hU hne
    | cons u us => exact ⟨u, us, rfl⟩
  unfold extract_coordinate_data
  rw [hUeq]
  unfold extractLoop
  rw [aggregateYear_unknown mode hm1 hm2 hm3 hm4 _]

/-- Witness for C8 at mode "median" and the one-step year list [2035]. -/
theorem C8_unknown_mode_fails_witness :
    ("median" ∉ (["mean", "max", "min", "all"] : List String) ∧
      ([2035] : List Int) ≠ []) ∧
    extract_coordinate_data (M := 1) (N := 1) [] [2035] "median"
      = .error ("Unknown aggregation method: " ++ "median") :=
  ⟨⟨by decide, by decide⟩,
   C8_unknown_mode_fails "median" (by decide) [] [2035] (by decide)⟩

theorem flattenGrid_length {M N : Nat} (g : Raster M N) :
    (flattenGrid g).length = M * N := List.length_ofFn _

theorem meanAxis0_length (rows : List (List ℚ)) (width : Nat) :
    (meanAxis0 rows width).length = width := by
  unfold meanAxis0
  rw [List.length_map, List.length_range]

theorem aggColumn_length {M N : Nat} (a : Agg M N) : (aggColumn a).length = M * N := by
  cases a with
  | two arr => exact flattenGrid_length arr
  | three days => exact meanAxis0_length _ _

theorem flattenGrid_getElem {M N : Nat} (g : Raster M N) (k : Nat) (hk : k < M * N) :
    (flattenGrid g).getD k 0
      = g ⟨k / N, Nat.div_lt_of_lt_mul (Nat.mul_comm M N ▸ hk)⟩
          ⟨k % N, Nat.mod_lt _ (nPosOfFin ⟨k, hk⟩)⟩ := by
  rw [List.getD_eq_getElem?_getD,
    List.getElem?_eq_getElem (by rw [flattenGrid_length]; exact hk)]
  simp only [flattenGrid, List.getElem_ofFn, Option.getD_some]

theorem flattenGrid_getD {M N : Nat} (g : Raster M N) (i : Fin M) (j : Fin N) :
    (flattenGrid g).getD (i.val * N + j.val) 0 = g i j := by
  have hN : 0 < N := j.pos
  have hk : i.val * N + j.val < M * N := by
    have h1 : i.val * N + j.val < (i.val + 1) * N := by
      have hj := j.isLt
      have h2 : (i.val + 1) * N = i.val * N + N := by ring
      omega
    have h3 : (i.val + 1) * N ≤ M * N := Nat.mul_le_mul_right N i.isLt
    omega
  rw [flattenGrid_getElem g _ hk]
  have hdiv : (i.val * N + j.val) / N = i.val := by
    rw [Nat.mul_comm, Nat.mul_add_div hN, Nat.div_eq_of_lt j.isLt, Nat.add_zero]
  have hmod : (i.val * N + j.val) % N = j.val := by
    rw [Nat.mul_comm, Nat.mul_add_mod, Nat.mod_eq_of_lt j.isLt]
  exact congrArg₂ g (Fin.ext hdiv) (Fin.ext hmod)

theorem meanAxis0_flattenGrid {M N : Nat} (days : List (Raster M N)) :
    meanAxis0 (days.map flattenGrid) (M * N)
      = flattenGrid (fun i j =>
          ((days.map (fun f => f i j)).sum) / ((days.length : ℚ))) := by
  apply List.ext_getElem
  · rw [meanAxis0_length, flattenGrid_length]
  · intro k h1 h2
    have hk : k < M * N := by rwa [meanAxis0_length] at h1
    simp only [meanAxis0, flattenGrid, List.getElem_map, List.getElem_range,
      List.getElem_ofFn]
    rw [List.map_map, List.length_map]
    congr 1
    congr 1
    apply List.map_congr_left
    intro f _
    show (flattenGrid f).getD k 0 = _
    rw [flattenGrid_getElem f k hk]

theorem sortPairs_sorted_map {M N : Nat} (l : List Int) (hs : l.Sorted (· ≤ ·))
    (g : Int → Agg M N) :
    sortPairs (l.map (fun y => (y, g y))) = l.map (fun y => (y, g y)) := by
  unfold sortPairs
  exact List.Sorted.insertionSort_eq (List.Pairwise.map _ (fun a b hab => hab) hs)

/-- C7: the end-to-end table under mode "all" (aggregation keeps the daily
stack, the tabulator then averages it over the day axis) is identical to
the end-to-end table under mode "mean" (aggregation averages immediately):
"all" never reaches the written table with daily resolution. -/
theorem C7_all_equals_mean {M N : Nat} (lat : Fin M → ℚ) (lon : Fin N → ℚ)
    (varName : String) (data : List (Raster M N)) (ys : List Int) :
    ∃ dAll dMean,
      extract_coordinate_data data ys "all" = .ok dAll ∧
      extract_coordinate_data data ys "mean" = .ok dMean ∧
      orderColumns (prepare_dataframe_data lat lon dAll varName)
        = orderColumns (prepare_dataframe_data lat lon dMean varName) := by
  refine ⟨_, _,
    extractLoop_ok_map data ys "all" (fun y => .three (selectYear data ys y))
      (fun y => rfl) (uniqueYears ys),
    extractLoop_ok_map data ys "mean"
      (fun y => .two (fun i j => ((selectYear data ys y).map (fun f => f i j)).sum /
        ((selectYear data ys y).length : ℚ))) (fun y => rfl) (uniqueYears ys), ?_⟩
  congr 1
  unfold prepare_dataframe_data
  rw [sortPairs_sorted_map (uniqueYears ys) (uniqueYears_sorted ys)
      (fun y => Agg.three (selectYear data ys y)),
    sortPairs_sorted_map (uniqueYears ys) (uniqueYears_sorted ys)
      (fun y => Agg.two (fun i j => ((selectYear data ys y).map (fun f => f i j)).sum /
        ((selectYear data ys y).length : ℚ))),
    List.map_map, List.map_map]
  refine congrArg _ (congrArg _ ?_)
  apply List.map_congr_left
  intro y _
  show (yearColName varName y, meanAxis0 ((selectYear data ys y).map flattenGrid) (M * N))
    = (yearColName varName y, flattenGrid (fun i j =>
        ((selectYear data ys y).map (fun f => f i j)).sum /
          ((selectYear data ys y).length : ℚ)))
  rw [meanAxis0_flattenGrid]

theorem yearColName_has_underscore (v : String) (y : Int) :
    '_' ∈ (yearColName v y).data := by
  unfold yearColName
  rw [String.data_append, String.data_append]
  exact List.mem_append.mpr (Or.inl (List.mem_append.mpr (Or.inr (by decide))))

theorem yearColName_ne_lat (v : String) (y : Int) : yearColName v y ≠ "lat" := by
  intro h
  have hm := yearColName_has_underscore v y
  rw [h] at hm
  exact absurd hm (by decide)

theorem yearColName_ne_lon (v : String) (y : Int) : yearColName v y ≠ "lon" := by
  intro h
  have hm := yearColName_has_underscore v y
  rw [h] at hm
  exact absurd hm (by decide)

theorem orderColumns_shape (latCol lonCol : List ℚ) (ycols : List (String × List ℚ))
    (hno : ∀ c ∈ ycols, c.1 ≠ "lat" ∧ c.1 ≠ "lon") :
    orderColumns (("lat", latCol) :: ("lon", lonCol) :: ycols)
      = ("lat", latCol) :: ("lon", lonCol) :: ycols := by
  have h1 : (("lat", latCol) :: ("lon", lonCol) :: ycols).filter (fun c => c.1 == "lat")
      = [("lat", latCol)] := by
    simp only [List.filter_cons]
    rw [if_pos (beq_self_eq_true ("lat" : String)), if_neg (by decide)]
    rw [List.filter_eq_nil_iff.mpr (fun c hc => by
      simp only [beq_iff_eq]
      exact (hno c hc).1)]
  have h2 : (("lat", latCol) :: ("lon", lonCol) :: ycols).filter (fun c => c.1 == "lon")
      = [("lon", lonCol)] := by
    simp only [List.filter_cons]
    rw [if_neg (by decide), if_pos (beq_self_eq_true ("lon" : String))]
    rw [List.filter_eq_nil_iff.mpr (fun c hc => by
      simp only [beq_iff_eq]
      exact (hno c hc).2)]
  have h3 : (("lat", latCol) :: ("lon", lonCol) :: ycols).filter
      (fun c => c.1 != "lat" && c.1 != "lon") = ycols := by
    simp only [List.filter_cons]
    rw [if_neg (by decide), if_neg (by decide)]
    rw [List.filter_eq_self.mpr (fun c hc => by
      simp only [Bool.and_eq_true, bne_iff_ne]
      exact hno c hc)]
  unfold orderColumns
  rw [h1, h2, h3]
  rfl

theorem orderColumns_prepare {M N : Nat} (lat : Fin M → ℚ) (lon : Fin N → ℚ)
    (dict : List (Int × Agg M N)) (varName : String) :
    orderColumns (prepare_dataframe_data lat lon dict varName)
      = prepare_dataframe_data lat lon dict varName := by
  unfold prepare_dataframe_data
  apply orderColumns_shape
  intro c hc
  rw [List.mem_map] at hc
  obtain ⟨p, hp, rfl⟩ := hc
  exact ⟨yearColName_ne_lat varName p.1, yearColName_ne_lon varName p.1⟩

/-- C2: the final table is "lat" and "lon" first, then one column
"<variable>_<year>" per mapping entry in strictly ascending year order
(the sorted keys being a permutation of the mapping's keys); every column
has exactly M·N entries, and at flat row index lat_index·N + lon_index
the "lat" column holds lat[lat_index] and the "lon" column holds
lon[lon_index] — lat-major order, each (lat, lon) combination once. -/
theorem C2_tabulator {M N : Nat} (lat : Fin M → ℚ) (lon : Fin N → ℚ)
    (dict : List (Int × Agg M N)) (varName : String)
    (hnd : (dict.map Prod.fst).Nodup) :
    ∃ latCol lonCol yearCols,
      orderColumns (prepare_dataframe_data lat lon dict varName)
        = ("lat", latCol) :: ("lon", lonCol) :: yearCols ∧
      yearCols.map Prod.fst = ((sortPairs dict).map Prod.fst).map (yearColName varName) ∧
      ((sortPairs dict).map Prod.fst).Sorted (· < ·) ∧
      ((sortPairs dict).map Prod.fst).Perm (dict.map Prod.fst) ∧
      latCol.length = M * N ∧ lonCol.length = M * N ∧
      (∀ c ∈ yearCols, c.2.length = M * N) ∧
      ∀ (i : Fin M) (j : Fin N),
        latCol.getD (i.val * N + j.val) 0 = lat i ∧
        lonCol.getD (i.val * N + j.val) 0 = lon j := by
  haveI : IsTotal (Int × Agg M N) (fun a b => a.1 ≤ b.1) :=
    ⟨fun a b => Int.le_total a.1 b.1⟩
  haveI : IsTrans (Int × Agg M N) (fun a b => a.1 ≤ b.1) :=
    ⟨fun _ _ _ hab hbc => Int.le_trans hab hbc⟩
  refine ⟨flattenGrid (fun (i : Fin M) (_ : Fin N) => lat i),
    flattenGrid (fun (_ : Fin M) (j : Fin N) => lon j),
    (sortPairs dict).map (fun p => (yearColName varName p.1, aggColumn p.2)),
    by rw [orderColumns_prepare lat lon dict varName]; rfl, ?_, ?_, ?_, ?_, ?_, ?_, ?_⟩
  · rw [List.map_map, List.map_map]
    rfl
  · have hperm : ((sortPairs dict).map Prod.fst).Perm (dict.map Prod.fst) :=
      (List.perm_insertionSort _ _).map Prod.fst
    have hnd2 : ((sortPairs dict).map Prod.fst).Nodup := hnd.perm hperm.symm
    have hsorted : ((sortPairs dict).map Prod.fst).Sorted (· ≤ ·) :=
      List.Pairwise.map Prod.fst (fun _ _ hab => hab)
        (List.sorted_insertionSort (fun a b : Int × Agg M N => a.1 ≤ b.1) dict)
    exact hsorted.lt_of_le hnd2
  · exact (List.perm_insertionSort _ _).map Prod.fst
  · exact flattenGrid_length _
  · exact flattenGrid_length _
  · intro c hc
    rw [List.mem_map] at hc
    obtain ⟨p, hp, rfl⟩ := hc
    exact aggColumn_length p.2
  · intro i j
    exact ⟨flattenGrid_getD (fun (i : Fin M) (_ : Fin N) => lat i) i j,
      flattenGrid_getD (fun (_ : Fin M) (j : Fin N) => lon j) i j⟩

/-- Latitudes of the C2 witness grid. -/
def latC2 : Fin 2 → ℚ := ![(-10 : ℚ), -9]

/-- Longitudes of the C2 witness grid. -/
def lonC2 : Fin 2 → ℚ := ![(100 : ℚ), 101]

/-- The single-year mapping of the C2 witness. -/
def dictC2 : List (Int × Agg 2 2) := [(2035, Agg.two (fun _ _ => 7))]

/-- Witness for C2 on the 2×2 grid of the specification's round-trip test,
with one year column. -/
theorem C2_tabulator_witness :
    (dictC2.map Prod.fst).Nodup ∧
    (∃ latCol lonCol yearCols,
      orderColumns (prepare_dataframe_data latC2 lonC2 dictC2 "tasmax")
        = ("lat", latCol) :: ("lon", lonCol) :: yearCols ∧
      yearCols.map Prod.fst = ((sortPairs dictC2).map Prod.fst).map (yearColName "tasmax") ∧
      ((sortPairs dictC2).map Prod.fst).Sorted (· < ·) ∧
      ((sortPairs dictC2).map Prod.fst).Perm (dictC2.map Prod.fst) ∧
      latCol.length = 2 * 2 ∧ lonCol.length = 2 * 2 ∧
      (∀ c ∈ yearCols, c.2.length = 2 * 2) ∧
      ∀ (i : Fin 2) (j : Fin 2),
        latCol.getD (i.val * 2 + j.val) 0 = latC2 i ∧
        lonCol.getD (i.val * 2 + j.val) 0 = lonC2 j) :=
  ⟨List.nodup_singleton 2035,
   C2_tabulator latC2 lonC2 dictC2 "tasmax" (List.nodup_singleton 2035)⟩

end CMIP6
